import Mathlib

/-!
Shallow embedding of the bridge orchestration core of a Matrix to Slack
bridge, together with theorems settling the frozen claims about it.

Modules embedded (faithfully transliterated from the Rust source):
  src/cache.rs                    TimedCache (TTL read-through cache)
  src/bridge/presence_handler.rs  PresenceHandler: enqueue_user, map_presence
  src/bridge/provisioning.rs      ProvisioningCoordinator pending-map steps
  src/bridge/logic.rs             apply_message_relation_mappings
  src/bridge.rs                   bridge_matrix_room, check_room_limit
  src/slack.rs                    handle_socket_text, socket_mode_loop frame
                                  handling, handle_message_event

Time (std::time::Instant, chrono timestamps) is modelled as Nat; machine
integers (i32 and i64 counters) are modelled as Int, which is exact here
because no arithmetic in the embedded code can overflow the source types
for the values considered.  serde_json::Value is modelled by the inductive
Json below; Value::get on an object returns the value of the first field
with the given key, matching the unique-key maps serde_json produces.
-/

namespace SlackBridge

/-- Model of serde_json::Value restricted to the operations the embedded
code performs: field access on objects and string extraction. -/
inductive Json where
  | null
  | bool (b : Bool)
  | num (n : Int)
  | str (s : String)
  | arr (elems : List Json)
  | obj (fields : List (String × Json))

/-- Value::get(key) on an object: first field with the given key. -/
def Json.get : Json → String → Option Json
  | .obj fields, key => fields.lookup key
  | _, _ => none

/-- Value::as_str. -/
def Json.asStr : Json → Option String
  | .str s => some s
  | _ => none

/-- Association-list lookup, modelling HashMap::get. -/
def lookupAssoc {K V : Type} [DecidableEq K] : List (K × V) → K → Option V
  | [], _ => none
  | (k, v) :: rest, key => if k = key then some v else lookupAssoc rest key

/-- Association-list insert, modelling HashMap::insert: replaces the
binding in place when the key is present, otherwise appends it. -/
def insertAssoc {K V : Type} [DecidableEq K] : List (K × V) → K → V → List (K × V)
  | [], key, v => [(key, v)]
  | (k, w) :: rest, key, v =>
      if k = key then (key, v) :: rest else (k, w) :: insertAssoc rest key v

/-- Association-list removal, modelling HashMap::remove (keys are unique,
so removing the first binding removes the binding). -/
def removeAssoc {K V : Type} [DecidableEq K] : List (K × V) → K → List (K × V)
  | [], _ => []
  | (k, w) :: rest, key =>
      if k = key then rest else (k, w) :: removeAssoc rest key

theorem lookupAssoc_insertAssoc {K V : Type} [DecidableEq K]
    (m : List (K × V)) (key : K) (v : V) :
    lookupAssoc (insertAssoc m key v) key = some v := by
  induction m with
  | nil => simp [insertAssoc, lookupAssoc]
  | cons hd tl ih =>
      obtain ⟨k, w⟩ := hd
      by_cases hk : k = key
      · simp [insertAssoc, lookupAssoc, hk]
      · simp [insertAssoc, lookupAssoc, hk, ih]

/-! ## src/cache.rs : TimedCache

The std Instant clock is modelled by passing the current time (a Nat) to
each operation; tv.inserted_at.elapsed() is now - tv.inserted_at (time is
monotone, so now is at least inserted_at wherever the code runs). -/

structure TimedValue (V : Type) where
  value : V
  inserted_at : Nat
deriving DecidableEq

structure TimedCache (K V : Type) where
  map : List (K × TimedValue V)
  ttl : Nat
deriving DecidableEq

namespace TimedCache

variable {K V : Type} [DecidableEq K]

/-- TimedCache::new. -/
def new (ttl : Nat) : TimedCache K V := ⟨[], ttl⟩

/-- TimedCache::get: returns the value only while the entry is fresh;
expired entries are left in the map untouched (get takes the cache
immutably and cannot remove anything). -/
def get (c : TimedCache K V) (now : Nat) (key : K) : Option V :=
  (lookupAssoc c.map key).bind fun tv =>
    if now - tv.inserted_at < c.ttl then some tv.value else none

/-- TimedCache::insert: always stamps the current instant. -/
def insert (c : TimedCache K V) (now : Nat) (key : K) (value : V) :
    TimedCache K V :=
  { c with map := insertAssoc c.map key ⟨value, now⟩ }

/-- TimedCache::remove. -/
def remove (c : TimedCache K V) (key : K) : TimedCache K V :=
  { c with map := removeAssoc c.map key }

/-- TimedCache::cleanup_expired: the explicit sweep. -/
def cleanup_expired (c : TimedCache K V) (now : Nat) : TimedCache K V :=
  { c with map := c.map.filter fun kv => now - kv.2.inserted_at < c.ttl }

end TimedCache

/-! ## src/bridge/presence_handler.rs -/

inductive SlackPresenceState where
  | online
  | dnd
  | idle
  | offline
deriving DecidableEq

structure SlackActivity where
  kind : String
  name : String
  url : Option String
deriving DecidableEq

structure SlackPresence where
  user_id : String
  username : Option String
  state : SlackPresenceState
  activities : List SlackActivity
deriving DecidableEq

inductive MatrixPresenceState where
  | online
  | offline
  | unavailable
deriving DecidableEq

structure PresenceDecision where
  presence : MatrixPresenceState
  status_message : String
  should_drop : Bool
deriving DecidableEq

/-- PresenceHandler state: the optional own-bot Slack user id and the
coalescing VecDeque, front at the head of the list. -/
structure PresenceHandler where
  bot_slack_user_id : Option String
  queue : List SlackPresence
deriving DecidableEq

namespace PresenceHandler

/-- PresenceHandler::enqueue_user: drop updates for the own bot identity,
otherwise retain all other entries for different users and push the new
entry at the back. -/
def enqueue_user (h : PresenceHandler) (presence : SlackPresence) :
    PresenceHandler :=
  if h.bot_slack_user_id.any fun bot_id => bot_id = presence.user_id then h
  else
    { h with
      queue :=
        (h.queue.filter fun item => item.user_id != presence.user_id)
          ++ [presence] }

/-- Status-line construction at the top of PresenceHandler::map_presence:
first activity, kind with first character uppercased and the rest
lowercased, then the name, then an optional pipe-separated url.  Rust
char::to_uppercase is modelled by Char.toUpper, exact for the ASCII
activity kinds the bridge receives. -/
def activity_status_message (presence : SlackPresence) : String :=
  match presence.activities.head? with
  | none => ""
  | some activity =>
      let base :=
        match activity.kind.data with
        | [] => activity.name
        | first :: rest =>
            String.mk [first.toUpper] ++ (String.mk rest).toLower
              ++ " " ++ activity.name
      match activity.url with
      | none => base
      | some url => base ++ " | " ++ url

/-- PresenceHandler::map_presence. -/
def map_presence (presence : SlackPresence) : PresenceDecision :=
  let status_message := activity_status_message presence
  match presence.state with
  | .online =>
      { presence := .online, status_message := status_message,
        should_drop := false }
  | .dnd =>
      let status_message :=
        if status_message.isEmpty then "Do not disturb"
        else "Do not disturb | " ++ status_message
      { presence := .online, status_message := status_message,
        should_drop := false }
  | .offline =>
      { presence := .offline, status_message := status_message,
        should_drop := true }
  | .idle =>
      { presence := .unavailable, status_message := status_message,
        should_drop := false }

end PresenceHandler

/-! ## src/bridge/provisioning.rs

The tokio oneshot channel is modelled by a Nat token naming each created
sender; the pending HashMap maps channel ids to the token of the sender
stored for that channel.  HashMap::insert returns the displaced previous
binding, which ask_bridge_permission discards, dropping that sender. -/

inductive ApprovalResponseStatus where
  | applied
  | expired
deriving DecidableEq

inductive ProvisioningError where
  | timedOut
  | declined
  | deliveryFailed
  | cancelled
deriving DecidableEq

/-- The pending map of the ProvisioningCoordinator. -/
abbrev PendingMap := List (String × Nat)

/-- Registration step of ask_bridge_permission (lines 59 to 62): create a
fresh oneshot pair and insert its sender into the pending map.  Returns
the new map and the displaced sender token, if any; the caller drops the
displaced sender immediately. -/
def registerPending (pending : PendingMap) (channel_id : String)
    (tok : Nat) : PendingMap × Option Nat :=
  (insertAssoc pending channel_id tok, lookupAssoc pending channel_id)

/-- Outcome of awaiting the oneshot receiver inside the timeout. -/
inductive RecvResult where
  | fired (allow : Bool)
  | senderDropped
deriving DecidableEq

/-- Result of tokio::time::timeout around the receiver. -/
inductive TimeoutResult where
  | within (r : RecvResult)
  | elapsed
deriving DecidableEq

/-- The match at the end of ask_bridge_permission (lines 78 to 86),
mapping the awaited decision to the returned result. -/
def waitOutcome : TimeoutResult → Except ProvisioningError Unit
  | .within (.fired true) => .ok ()
  | .within (.fired false) => .error .declined
  | .within .senderDropped => .error .cancelled
  | .elapsed => .error .timedOut

/-- ProvisioningCoordinator::mark_approval: pop the pending entry; absent
means Expired, present means the stored sender fires with the verdict and
Applied is returned.  The fired token is exposed for the theorems. -/
def mark_approval (pending : PendingMap) (channel_id : String) :
    PendingMap × ApprovalResponseStatus × Option Nat :=
  match lookupAssoc pending channel_id with
  | none => (pending, .expired, none)
  | some tok => (removeAssoc pending channel_id, .applied, some tok)

/-- ProvisioningCoordinator::has_pending_request. -/
def has_pending_request (pending : PendingMap) (channel_id : String) :
    Bool :=
  (lookupAssoc pending channel_id).isSome

/-! ## src/db/models.rs (the records the embedded code touches) -/

structure RoomMapping where
  id : Int
  matrix_room_id : String
  slack_channel_id : String
  slack_channel_name : String
  slack_team_id : String
  created_at : Nat
  updated_at : Nat
deriving DecidableEq

structure MessageMapping where
  id : Int
  slack_message_id : String
  matrix_room_id : String
  matrix_event_id : String
  created_at : Nat
  updated_at : Nat
deriving DecidableEq

/-! ## src/bridge/message_flow.rs and src/bridge/logic.rs -/

structure OutboundMatrixMessage where
  body : String
  reply_to : Option String
  edit_of : Option String
  attachments : List String
deriving DecidableEq

/-- apply_message_relation_mappings: overwrite reply_to and edit_of with
the Matrix event id of the corresponding MessageMapping when that mapping
was found; leave them untouched when it was not. -/
def apply_message_relation_mappings (outbound : OutboundMatrixMessage)
    (reply_mapping : Option MessageMapping)
    (edit_mapping : Option MessageMapping) : OutboundMatrixMessage :=
  let outbound :=
    match reply_mapping with
    | some link => { outbound with reply_to := some link.matrix_event_id }
    | none => outbound
  match edit_mapping with
  | some link => { outbound with edit_of := some link.matrix_event_id }
  | none => outbound

/-! ## src/bridge.rs : bridge_matrix_room and check_room_limit

The async environment is made explicit: the configured room-count limit
(an i32), the current store row count (an i64), the result of the
get_room_by_slack_channel lookup, and the result of the get_channel call.
Store and network failures propagate as errors in the source; the model
covers the successful reads, which is where the claims live.  The return
value pairs the reply string with whether create_room_mapping ran. -/

structure SlackChannel where
  id : String
  name : String
  guild_id : String
  topic : Option String
deriving DecidableEq

/-- BridgeCore::check_room_limit: a negative configured limit disables
the check; otherwise the store count is compared against it. -/
def check_room_limit (room_count_limit : Int) (current_count : Int) :
    Option String :=
  if room_count_limit < 0 then none
  else if current_count ≥ room_count_limit then
    some ("This bridge has reached its room limit of "
      ++ toString room_count_limit
      ++ ". Unbridge another room to allow for new connections.")
  else none

/-- BridgeCore::bridge_matrix_room: limit check first, then the
already-bridged check, then the channel lookup, and only then the store
mutation.  The Bool component records whether create_room_mapping ran. -/
def bridge_matrix_room (room_count_limit : Int) (current_count : Int)
    (existing_mapping : Option RoomMapping)
    (channel : Option SlackChannel) : String × Bool :=
  match check_room_limit room_count_limit current_count with
  | some limit_message => (limit_message, false)
  | none =>
      match existing_mapping with
      | some _ => ("This Slack channel is already bridged.", false)
      | none =>
          match channel with
          | none =>
              ("There was a problem bridging that channel - channel was not found.",
                false)
          | some _ => ("I have bridged this room to your channel", true)

/-! ## src/slack.rs : socket-mode frame handling

handle_socket_text takes the parse result of the text frame (none models
invalid JSON).  Its observable effects are the list of envelope-id acks
sent back on the stream and either an error (the anyhow bail paths) or an
optional events-api event handed to handle_event.  Ack transmission
failures are transport-level and outside the model. -/

/-- SlackClient::handle_socket_text. -/
def handle_socket_text (payload : Option Json) :
    List String × Except String (Option Json) :=
  match payload with
  | none => ([], .error "invalid socket payload JSON")
  | some payload =>
      let acks :=
        match (payload.get "envelope_id").bind Json.asStr with
        | some envelope_id => [envelope_id]
        | none => []
      if (payload.get "type").bind Json.asStr = some "disconnect" then
        (acks, .error "received disconnect from Slack")
      else
        match payload.get "payload" with
        | none => (acks, .ok none)
        | some events_api =>
            if (events_api.get "type").bind Json.asStr = some "events_api"
            then
              match events_api.get "event" with
              | none => (acks, .ok none)
              | some event => (acks, .ok (some event))
            else (acks, .ok none)

/-- One inbound frame of the socket-mode stream as seen by the while-let
loop in SlackClient::socket_mode_loop. -/
inductive WsFrame where
  | text (payload : Option Json)
  | ping
  | close
  | other
  | streamError

/-- The frame-consuming while-let loop inside one connection of
SlackClient::socket_mode_loop (lines 508 to 527), returning the events-api
events dispatched to handle_event before the loop ends.  A text frame
whose handling errors is logged with warn and the loop continues; only a
close frame or a stream error breaks out of the loop. -/
def socket_read_loop : List WsFrame → List Json
  | [] => []
  | frame :: rest =>
      match frame with
      | .text payload =>
          (match (handle_socket_text payload).2 with
            | .ok (some event) => [event]
            | .ok none => []
            | .error _ => []) ++ socket_read_loop rest
      | .ping => socket_read_loop rest
      | .close => []
      | .other => socket_read_loop rest
      | .streamError => []

/-! ## src/slack.rs : handle_message_event

The observable outcome of the subtype dispatch: a delete keyed by the
deleted timestamp, a forward of a message value with the edit flag, or a
silent drop (every return Ok(()) path that never reaches the bridge). -/

inductive SlackMessageAction where
  | deleteForwarded (channel_id : String) (deleted_ts : String)
  | forwarded (channel_id : String) (message : Json) (is_edit : Bool)
  | dropped

/-- SlackClient::handle_message_event. -/
def handle_message_event (event : Json) : SlackMessageAction :=
  match (event.get "subtype").bind Json.asStr with
  | some subtype =>
      if subtype = "message_deleted" then
        match (event.get "channel").bind Json.asStr with
        | none => .dropped
        | some channel_id =>
            match ((event.get "deleted_ts").bind Json.asStr).or
                (((event.get "previous_message").bind
                  fun m => m.get "ts").bind Json.asStr) with
            | none => .dropped
            | some deleted_ts => .deleteForwarded channel_id deleted_ts
      else if subtype = "message_changed" then
        match (event.get "channel").bind Json.asStr with
        | none => .dropped
        | some channel_id =>
            match event.get "message" with
            | some message => .forwarded channel_id message true
            | none => .dropped
      else if subtype = "bot_message" then
        .dropped
      else
        .dropped
  | none =>
      match (event.get "channel").bind Json.asStr with
      | none => .dropped
      | some channel_id => .forwarded channel_id event false

/-! ## Theorems settling the claims -/

/-- C7: a value inserted into the TTL cache is returned by get while less
than ttl has elapsed since the insert, is a miss once ttl or more has
elapsed, yet stays stored in the map regardless (get removes nothing;
only remove or the explicit sweep evicts), and insert stamps the current
time on the entry. -/
theorem c7_timed_cache_ttl {K V : Type} [DecidableEq K]
    (c : TimedCache K V) (now t : Nat) (key : K) (value : V) :
    (t - now < c.ttl →
      (c.insert now key value).get t key = some value) ∧
    (c.ttl ≤ t - now →
      (c.insert now key value).get t key = none) ∧
    lookupAssoc (c.insert now key value).map key = some ⟨value, now⟩ := by
  have hl : lookupAssoc (insertAssoc c.map key ⟨value, now⟩) key
      = some ⟨value, now⟩ := lookupAssoc_insertAssoc c.map key ⟨value, now⟩
  refine ⟨fun h => ?_, fun h => ?_, hl⟩
  · simp [TimedCache.get, TimedCache.insert, hl, h]
  · simp [TimedCache.get, TimedCache.insert, hl, Nat.not_lt.mpr h]

/-- Witness for C7 at a concrete cache: ttl 5, insert at instant 10, hit
at instant 14, miss at instant 15. -/
theorem c7_timed_cache_ttl_witness :
    ((TimedCache.new (K := String) (V := Nat) 5).insert 10 "k" 42).get 14 "k"
        = some 42 ∧
    ((TimedCache.new (K := String) (V := Nat) 5).insert 10 "k" 42).get 15 "k"
        = none :=
  ⟨(c7_timed_cache_ttl (TimedCache.new 5) 10 14 "k" 42).1 (by decide),
    (c7_timed_cache_ttl (TimedCache.new 5) 10 15 "k" 42).2.1 (by decide)⟩

/-- C8: map_presence sets should_drop exactly on the Offline source
state; DoNotDisturb maps to Online with a status line that starts with
the text Do not disturb; Idle maps to Unavailable; Online maps to
Online. -/
theorem c8_map_presence (p : SlackPresence) :
    ((PresenceHandler.map_presence p).should_drop = true ↔
      p.state = .offline) ∧
    (p.state = .dnd →
      (PresenceHandler.map_presence p).presence = .online ∧
      ∃ r, (PresenceHandler.map_presence p).status_message
        = "Do not disturb" ++ r) ∧
    (p.state = .idle →
      (PresenceHandler.map_presence p).presence = .unavailable) ∧
    (p.state = .online →
      (PresenceHandler.map_presence p).presence = .online) := by
  cases hs : p.state with
  | online => simp [PresenceHandler.map_presence, hs]
  | dnd =>
      refine ⟨by simp [PresenceHandler.map_presence, hs], fun _ => ?_,
        by simp [hs], by simp [hs]⟩
      by_cases he : (PresenceHandler.activity_status_message p).isEmpty
      · exact ⟨by simp [PresenceHandler.map_presence, hs, he],
          "", by simp [PresenceHandler.map_presence, hs, he]⟩
      · refine ⟨by simp [PresenceHandler.map_presence, hs, he],
          " | " ++ PresenceHandler.activity_status_message p, ?_⟩
        have hsplit :
            "Do not disturb | " ++ PresenceHandler.activity_status_message p
              = "Do not disturb"
                ++ (" | " ++ PresenceHandler.activity_status_message p) := by
          cases PresenceHandler.activity_status_message p with
          | mk data => rfl
        simp [PresenceHandler.map_presence, hs, he, hsplit]
  | idle => simp [PresenceHandler.map_presence, hs]
  | offline => simp [PresenceHandler.map_presence, hs]

/-- Witness for C8 on a concrete DoNotDisturb presence carrying an
activity, an Idle presence, an Online presence and an Offline one. -/
theorem c8_map_presence_witness :
    (PresenceHandler.map_presence
        ⟨"U1", none, .dnd,
          [⟨"STREAMING", "Rust", some "https://example.org"⟩]⟩).presence
      = .online ∧
    (∃ r, (PresenceHandler.map_presence
        ⟨"U1", none, .dnd,
          [⟨"STREAMING", "Rust", some "https://example.org"⟩]⟩).status_message
      = "Do not disturb" ++ r) ∧
    (PresenceHandler.map_presence ⟨"U1", none, .idle, []⟩).presence
      = .unavailable ∧
    ((PresenceHandler.map_presence ⟨"U1", none, .offline, []⟩).should_drop
        = true ↔
      (SlackPresence.mk "U1" none .offline []).state = .offline) := by
  refine ⟨?_, ?_, ?_, ?_⟩
  · exact ((c8_map_presence
      ⟨"U1", none, .dnd,
        [⟨"STREAMING", "Rust", some "https://example.org"⟩]⟩).2.1 rfl).1
  · exact ((c8_map_presence
      ⟨"U1", none, .dnd,
        [⟨"STREAMING", "Rust", some "https://example.org"⟩]⟩).2.1 rfl).2
  · exact (c8_map_presence ⟨"U1", none, .idle, []⟩).2.2.1 rfl
  · exact (c8_map_presence ⟨"U1", none, .offline, []⟩).1

/-- C5: apply_message_relation_mappings replaces reply_to and edit_of
with the Matrix event id of the supplied MessageMapping, and passes the
original foreign id through unchanged when no mapping is supplied; the
function is total, so an unresolved id never fails the send. -/
theorem c5_relation_resolution (outbound : OutboundMatrixMessage)
    (rm em : Option MessageMapping) (link : MessageMapping) :
    (apply_message_relation_mappings outbound (some link) em).reply_to
        = some link.matrix_event_id ∧
    (apply_message_relation_mappings outbound rm (some link)).edit_of
        = some link.matrix_event_id ∧
    (apply_message_relation_mappings outbound none em).reply_to
        = outbound.reply_to ∧
    (apply_message_relation_mappings outbound rm none).edit_of
        = outbound.edit_of := by
  cases rm <;> cases em <;>
    simp [apply_message_relation_mappings]

/-- C4 fails on the code: enqueue_user does not preserve the original
queue position of a replaced entry.  Concretely, with user a at the front
and user b behind, a fresh update for user a lands at the back, behind
user b, instead of keeping the front slot. -/
theorem c4_counterexample :
    (PresenceHandler.enqueue_user
        ⟨none, [⟨"a", none, .online, []⟩, ⟨"b", none, .online, []⟩]⟩
        ⟨"a", none, .idle, []⟩).queue
      = [⟨"b", none, .online, []⟩, ⟨"a", none, .idle, []⟩] ∧
    (PresenceHandler.enqueue_user
        ⟨none, [⟨"a", none, .online, []⟩, ⟨"b", none, .online, []⟩]⟩
        ⟨"a", none, .idle, []⟩).queue
      ≠ [⟨"a", none, .idle, []⟩, ⟨"b", none, .online, []⟩] := by
  decide

/-- C4 amended: a later update for an already-queued user replaces the
earlier entry but is moved to the back of the queue (move-to-back
coalescing); afterwards the queue holds exactly one entry for that user,
at the back. -/
theorem c4_enqueue_moves_to_back (h : PresenceHandler) (p : SlackPresence)
    (hbot : h.bot_slack_user_id.any (fun bot_id => bot_id = p.user_id)
      = false) :
    (PresenceHandler.enqueue_user h p).queue
      = (h.queue.filter fun item => item.user_id != p.user_id) ++ [p] ∧
    ((PresenceHandler.enqueue_user h p).queue.filter
        fun item => item.user_id == p.user_id) = [p] := by
  have hq : (PresenceHandler.enqueue_user h p).queue
      = (h.queue.filter fun item => item.user_id != p.user_id) ++ [p] := by
    simp [PresenceHandler.enqueue_user, hbot]
  refine ⟨hq, ?_⟩
  rw [hq, List.filter_append]
  have hnone : ((h.queue.filter fun item => item.user_id != p.user_id).filter
      fun item => item.user_id == p.user_id) = [] := by
    induction h.queue with
    | nil => rfl
    | cons x xs ih =>
        by_cases hx : x.user_id = p.user_id <;>
          simp [List.filter_cons, hx, ih]
  simp [hnone]

/-- Witness for C4 amended on a concrete two-user queue. -/
theorem c4_enqueue_moves_to_back_witness :
    (PresenceHandler.enqueue_user
        ⟨none, [⟨"a", none, .online, []⟩, ⟨"b", none, .online, []⟩]⟩
        ⟨"a", none, .idle, []⟩).queue
      = ((PresenceHandler.mk none
            [⟨"a", none, .online, []⟩, ⟨"b", none, .online, []⟩]).queue.filter
          fun item => item.user_id != "a") ++ [⟨"a", none, .idle, []⟩] ∧
    ((PresenceHandler.enqueue_user
        ⟨none, [⟨"a", none, .online, []⟩, ⟨"b", none, .online, []⟩]⟩
        ⟨"a", none, .idle, []⟩).queue.filter
        fun item => item.user_id == "a") = [⟨"a", none, .idle, []⟩] :=
  c4_enqueue_moves_to_back
    ⟨none, [⟨"a", none, .online, []⟩, ⟨"b", none, .online, []⟩]⟩
    ⟨"a", none, .idle, []⟩ (by decide)

/-- C2 fails on the code: with a live pending entry for channel C123
(sender token 0), a second ask_bridge_permission call registers a fresh
decision signal (token 1 now stored for the channel) and displaces the
existing pending entry rather than rejecting the call. -/
theorem c2_counterexample :
    (registerPending [("C123", 0)] "C123" 1).1 ≠ [("C123", 0)] ∧
    (registerPending [("C123", 0)] "C123" 1).1 = [("C123", 1)] ∧
    (registerPending [("C123", 0)] "C123" 1).2 = some 0 := by
  decide

/-- C2 amended: a second ask_bridge_permission call for a channel with a
live pending entry is not rejected; it registers a new decision signal
that replaces the pending entry, and the displaced sender of the earlier
request is returned to be dropped. -/
theorem c2_second_request_replaces (pending : PendingMap)
    (channel_id : String) (tokOld tokNew : Nat)
    (hold : lookupAssoc pending channel_id = some tokOld) :
    lookupAssoc (registerPending pending channel_id tokNew).1 channel_id
        = some tokNew ∧
    (registerPending pending channel_id tokNew).2 = some tokOld := by
  exact ⟨lookupAssoc_insertAssoc pending channel_id tokNew, hold⟩

/-- Witness for C2 amended on the concrete pending map of channel C123. -/
theorem c2_second_request_replaces_witness :
    lookupAssoc (registerPending [("C123", 0)] "C123" 1).1 "C123"
        = some 1 ∧
    (registerPending [("C123", 0)] "C123" 1).2 = some 0 :=
  c2_second_request_replaces [("C123", 0)] "C123" 0 1 (by decide)

/-- C9: replacing the pending entry drops the earlier request, whose
sender is handed back displaced; a receiver whose sender is dropped
without firing resolves to the Cancelled error, and a later resolution of
the channel fires the replacement sender, not the earlier one, so the
earlier caller is no longer eligible for approval. -/
theorem c9_replaced_waiter_cancelled (pending : PendingMap)
    (channel_id : String) (tokOld tokNew : Nat)
    (hold : lookupAssoc pending channel_id = some tokOld) :
    (registerPending pending channel_id tokNew).2 = some tokOld ∧
    waitOutcome (.within .senderDropped)
        = .error ProvisioningError.cancelled ∧
    (mark_approval (registerPending pending channel_id tokNew).1
        channel_id).2.2 = some tokNew := by
  refine ⟨hold, rfl, ?_⟩
  simp [mark_approval, registerPending,
    lookupAssoc_insertAssoc pending channel_id tokNew]

/-- Witness for C9 on the concrete pending map of channel C123. -/
theorem c9_replaced_waiter_cancelled_witness :
    (registerPending [("C123", 0)] "C123" 1).2 = some 0 ∧
    waitOutcome (.within .senderDropped)
        = .error ProvisioningError.cancelled ∧
    (mark_approval (registerPending [("C123", 0)] "C123" 1).1
        "C123").2.2 = some 1 :=
  c9_replaced_waiter_cancelled [("C123", 0)] "C123" 0 1 (by decide)

/-- C6 fails on the code as universally stated: the room-count limit is
checked before the already-bridged check, so with limit 1 and one stored
room, a call for the already-mapped channel returns the limit message
instead of the already-bridged outcome (still with no mutation). -/
theorem c6_counterexample :
    (bridge_matrix_room 1 1
        (some ⟨1, "!r:example.org", "C123", "general", "T1", 0, 0⟩)
        none).1
      ≠ "This Slack channel is already bridged." ∧
    bridge_matrix_room 1 1
        (some ⟨1, "!r:example.org", "C123", "general", "T1", 0, 0⟩)
        none
      = ("This bridge has reached its room limit of 1. Unbridge another room to allow for new connections.",
          false) := by
  constructor
  · decide
  · rfl

/-- C6 amended: whenever the room-count ceiling check passes (the
configured limit is negative, hence disabled, or the count is below it),
a call for an already-mapped channel returns the already-bridged outcome;
an already-mapped channel never causes a store mutation on any path; a
negative limit disables the ceiling; and the ceiling is checked before
any mutation, since a failing check returns its message with no
mutation. -/
theorem c6_bridge_already_mapped (limit count : Int) (rm : RoomMapping)
    (channel : Option SlackChannel) :
    (limit < 0 ∨ count < limit →
      bridge_matrix_room limit count (some rm) channel
        = ("This Slack channel is already bridged.", false)) ∧
    (bridge_matrix_room limit count (some rm) channel).2 = false ∧
    (limit < 0 → check_room_limit limit count = none) ∧
    (∀ msg ex, check_room_limit limit count = some msg →
      bridge_matrix_room limit count ex channel = (msg, false)) := by
  have hnone : limit < 0 ∨ count < limit →
      check_room_limit limit count = none := by
    intro h
    rcases h with h | h
    · simp [check_room_limit, h]
    · by_cases hneg : limit < 0
      · simp [check_room_limit, hneg]
      · simp [check_room_limit, hneg, not_le.mpr h]
  refine ⟨fun h => ?_, ?_, fun h => hnone (Or.inl h), fun msg ex hc => ?_⟩
  · simp [bridge_matrix_room, hnone h]
  · cases hc : check_room_limit limit count <;>
      simp [bridge_matrix_room, hc]
  · simp [bridge_matrix_room, hc]

/-- Witness for C6 amended with a disabled (negative) limit and a mapped
channel. -/
theorem c6_bridge_already_mapped_witness :
    bridge_matrix_room (-1) 5
        (some ⟨1, "!r:example.org", "C123", "general", "T1", 0, 0⟩)
        none
      = ("This Slack channel is already bridged.", false) ∧
    check_room_limit (-1) 5 = none :=
  ⟨(c6_bridge_already_mapped (-1) 5
      ⟨1, "!r:example.org", "C123", "general", "T1", 0, 0⟩ none).1
    (Or.inl (by decide)),
    (c6_bridge_already_mapped (-1) 5
      ⟨1, "!r:example.org", "C123", "general", "T1", 0, 0⟩ none).2.2.1
    (by decide)⟩

/-- C3 fails on the code: after a frame declaring type disconnect, the
read loop keeps reading.  Concretely, a disconnect frame followed by an
events-api frame still dispatches the later inner event, so the loop did
not stop reading at the disconnect frame. -/
theorem c3_counterexample :
    socket_read_loop
        [WsFrame.text (some (Json.obj [("type", Json.str "disconnect")])),
          WsFrame.text (some (Json.obj
            [("payload", Json.obj
              [("type", Json.str "events_api"),
                ("event", Json.obj [("type", Json.str "message")])])]))]
      = [Json.obj [("type", Json.str "message")]] ∧
    socket_read_loop
        [WsFrame.text (some (Json.obj [("type", Json.str "disconnect")])),
          WsFrame.text (some (Json.obj
            [("payload", Json.obj
              [("type", Json.str "events_api"),
                ("event", Json.obj [("type", Json.str "message")])])]))]
      ≠ [] := by
  have h : socket_read_loop
      [WsFrame.text (some (Json.obj [("type", Json.str "disconnect")])),
        WsFrame.text (some (Json.obj
          [("payload", Json.obj
            [("type", Json.str "events_api"),
              ("event", Json.obj [("type", Json.str "message")])])]))]
    = [Json.obj [("type", Json.str "message")]] := rfl
  exact ⟨h, fun hc => List.cons_ne_nil _ _ (h.symm.trans hc)⟩

/-- C3 amended: a frame declaring type disconnect makes
handle_socket_text return an error after acking any envelope id, but the
read loop only logs that error and continues with the remaining frames;
the loop exits the connection, falling through to the reconnect path,
only on a close frame or a stream error. -/
theorem c3_disconnect_error_loop_continues (payload : Json)
    (rest : List WsFrame)
    (hp : (payload.get "type").bind Json.asStr = some "disconnect") :
    (handle_socket_text (some payload)).2
        = .error "received disconnect from Slack" ∧
    socket_read_loop (WsFrame.text (some payload) :: rest)
        = socket_read_loop rest ∧
    socket_read_loop (WsFrame.close :: rest) = [] ∧
    socket_read_loop (WsFrame.streamError :: rest) = [] := by
  have h1 : (handle_socket_text (some payload)).2
      = .error "received disconnect from Slack" := by
    simp [handle_socket_text, hp]
  refine ⟨h1, ?_, rfl, rfl⟩
  simp [socket_read_loop, h1]

/-- Witness for C3 amended on a concrete disconnect frame followed by one
more frame. -/
theorem c3_disconnect_error_loop_continues_witness :
    (handle_socket_text
        (some (Json.obj [("type", Json.str "disconnect")]))).2
        = .error "received disconnect from Slack" ∧
    socket_read_loop
        [WsFrame.text (some (Json.obj [("type", Json.str "disconnect")])),
          WsFrame.ping]
        = socket_read_loop [WsFrame.ping] ∧
    socket_read_loop [WsFrame.close, WsFrame.ping] = [] ∧
    socket_read_loop [WsFrame.streamError, WsFrame.ping] = [] :=
  c3_disconnect_error_loop_continues
    (Json.obj [("type", Json.str "disconnect")]) [WsFrame.ping] rfl

/-- C10: every message event carrying a subtype other than
message_deleted and message_changed is dropped without reaching the
bridge (not only bot_message), and a subtype-less message event with a
channel is forwarded as an ordinary new message with the edit flag
unset. -/
theorem c10_subtype_dispatch :
    (∀ (event : Json) (s : String),
      (event.get "subtype").bind Json.asStr = some s →
      s ≠ "message_deleted" → s ≠ "message_changed" →
      handle_message_event event = .dropped) ∧
    (∀ (event : Json) (channel_id : String),
      (event.get "subtype").bind Json.asStr = none →
      (event.get "channel").bind Json.asStr = some channel_id →
      handle_message_event event = .forwarded channel_id event false) := by
  constructor
  · intro event s hs hdel hchg
    by_cases hbot : s = "bot_message" <;>
      simp [handle_message_event, hs, hdel, hchg, hbot]
  · intro event channel_id hs hc
    simp [handle_message_event, hs, hc]

/-- Witness for C10: a channel_join subtype is dropped even though it is
not bot_message, and a subtype-less message is forwarded as new. -/
theorem c10_subtype_dispatch_witness :
    handle_message_event
        (Json.obj [("subtype", Json.str "channel_join"),
          ("channel", Json.str "C1")])
      = .dropped ∧
    handle_message_event
        (Json.obj [("channel", Json.str "C1"), ("user", Json.str "U1"),
          ("ts", Json.str "1700000000.000100")])
      = .forwarded "C1"
          (Json.obj [("channel", Json.str "C1"), ("user", Json.str "U1"),
            ("ts", Json.str "1700000000.000100")]) false :=
  ⟨c10_subtype_dispatch.1
      (Json.obj [("subtype", Json.str "channel_join"),
        ("channel", Json.str "C1")])
      "channel_join" rfl (by decide) (by decide),
    c10_subtype_dispatch.2
      (Json.obj [("channel", Json.str "C1"), ("user", Json.str "U1"),
        ("ts", Json.str "1700000000.000100")])
      "C1" rfl rfl⟩

end SlackBridge
